import Mathlib

/-!
Verification of the Increff report automation scripts
(`inventory_to_drive.py`, `returns_to_drive.py`) against their
natural-language specification.

The two scripts share an identical core workflow (they differ only in the
report payload and output filename).  We shallowly embed that core:

* `Json` models a parsed Python JSON value (result of `resp.json()`).
* `assert_session_alive` models the helper of the same name
  (`inventory_to_drive.py` lines 104-108).
* `extractId` models the synchronous-identifier extraction
  (`main`, lines 143-147).
* `resolveRequestId` models identifier resolution including the
  first-listing-entry fallback and the final falsy check
  (`main`, lines 143-156).
* `pollStep` / `pollLoop` model one iteration / the whole poll loop
  (`main`, lines 160-176); the list of `Snapshot`s stands for the
  successive server observations available before the wall-clock
  deadline `MAX_WAIT_SECONDS` elapses (one snapshot per iteration the
  deadline admits).
* `runMain` models `main` from the generation POST up to the point where
  `requests.get(download_url, stream=True)` is issued (`main`,
  lines 140-183).
* `downloadStep` models the download block (`main`, lines 183-186).

The Python exceptions are encoded as outcome constructors:
`RuntimeError("Session expired or unauthorized")` /
`RuntimeError("Redirected to login page")` become `RunOutcome.authError`,
`RuntimeError("Could not determine requestId")` becomes
`RunOutcome.resolutionError`, and uncaught Python exceptions inside the
poll loop (e.g. `AttributeError` from `download_url.startswith` when the
normalized detail value is not a string) become `PollOutcome.pyError`.
-/

namespace Increff

/-- A parsed Python JSON value, as returned by `resp.json()`. -/
inductive Json where
  | null : Json
  | num (n : Int) : Json
  | str (s : String) : Json
  | arr (xs : List Json) : Json
  | obj (fs : List (String × Json)) : Json
deriving Repr

mutual

/-- Structural equality of JSON values, modelling Python `==` on parsed
JSON data. -/
def Json.beq : Json → Json → Bool
  | .null, .null => true
  | .num a, .num b => a == b
  | .str a, .str b => a == b
  | .arr xs, .arr ys => beqElems xs ys
  | .obj fs, .obj gs => beqFields fs gs
  | _, _ => false

/-- Elementwise equality of JSON arrays. -/
def beqElems : List Json → List Json → Bool
  | [], [] => true
  | x :: xs, y :: ys => Json.beq x y && beqElems xs ys
  | _, _ => false

/-- Entrywise equality of JSON objects. -/
def beqFields : List (String × Json) → List (String × Json) → Bool
  | [], [] => true
  | (k, v) :: fs, (l, w) :: gs => k == l && Json.beq v w && beqFields fs gs
  | _, _ => false

end

instance : BEq Json := ⟨Json.beq⟩

/-- Python truthiness of a JSON value (`if not request_id`):
`None`, `0`, `""` and empty containers are falsy. -/
def truthy : Json → Bool
  | .null => false
  | .num n => n != 0
  | .str s => s != ""
  | .arr xs => !xs.isEmpty
  | .obj fs => !fs.isEmpty

/-- Truthiness of an optional value (`None` is falsy). -/
def pyTruthyOpt : Option Json → Bool
  | none => false
  | some v => truthy v

/-- `dict.get(key)`: first binding of `key`, or Python `None`. -/
def lookupField : List (String × Json) → String → Option Json
  | [], _ => none
  | (k, v) :: fs, key => if k == key then some v else lookupField fs key

mutual

/-- Python `repr` of a parsed JSON value. -/
def pyRepr : Json → String
  | .null => "None"
  | .num n => toString n
  | .str s => "\x27" ++ s ++ "\x27"
  | .arr xs => "[" ++ pyReprElems xs ++ "]"
  | .obj fs => "\x7b" ++ pyReprFields fs ++ "\x7d"

/-- Comma-separated `repr`s of list elements. -/
def pyReprElems : List Json → String
  | [] => ""
  | [x] => pyRepr x
  | x :: xs => pyRepr x ++ ", " ++ pyReprElems xs

/-- Comma-separated `repr`s of dict entries. -/
def pyReprFields : List (String × Json) → String
  | [] => ""
  | [(k, v)] => "\x27" ++ k ++ "\x27: " ++ pyRepr v
  | (k, v) :: fs => "\x27" ++ k ++ "\x27: " ++ pyRepr v ++ ", " ++ pyReprFields fs

end

/-- Python `str` of a parsed JSON value (`str(val)` in the detail
normalization): a string is returned verbatim, everything else via `repr`. -/
def pyStr : Json → String
  | .str s => s
  | v => pyRepr v

/-- Python substring containment `needle in hay` on character lists. -/
def listContainsSub (needle : List Char) : List Char → Bool
  | [] => needle.isEmpty
  | c :: rest => List.isPrefixOf needle (c :: rest) || listContainsSub needle rest

/-- `"login" in resp.text.lower()` (lowercasing characterwise). -/
def containsLogin (t : String) : Bool :=
  listContainsSub ("login".toList) (t.toList.map Char.toLower)

/-- Response of the generation POST: HTTP status code, raw body text
(`resp.text`), and the parsed JSON body (`none` when `resp.json()` raises). -/
structure GenResponse where
  status : Nat
  text : String
  json : Option Json

/-- `assert_session_alive(resp)` (lines 104-108): `true` iff the helper
raises (`status in (401, 403)` or `"login" in resp.text.lower()`). -/
def assert_session_alive (resp : GenResponse) : Bool :=
  (resp.status == 401) || (resp.status == 403) || containsLogin resp.text

/-- Synchronous identifier extraction (lines 144-147):
`resp.json().get("id")` guarded by status `in (200, 201, 204)` and a
non-empty body; any exception in the `try` block yields `None`. -/
def extractId (resp : GenResponse) : Option Json :=
  if (resp.status = 200 ∨ resp.status = 201 ∨ resp.status = 204) ∧ resp.text ≠ "" then
    match resp.json with
    | some (Json.obj fs) => lookupField fs "id"
    | _ => none
  else none

/-- One element of the status listing, a dict observed through
`.get("requestId")` and `.get("status")` (absent keys give Python `None`). -/
structure Entry where
  requestId : Option Json
  status : Option Json
deriving BEq, Repr

/-- requestId resolution (lines 143-156): the synchronous identifier if
truthy, else the first listing entry's `requestId` (listing left empty
keeps the previous falsy value); `none` means the final
`if not request_id: raise RuntimeError("Could not determine requestId")`
fires. -/
def resolveRequestId (gen : GenResponse) (reports : List Entry) : Option Json :=
  let rid0 := extractId gen
  let rid1 :=
    if pyTruthyOpt rid0 then rid0
    else
      match reports with
      | [] => rid0
      | e :: _ => e.requestId
  if pyTruthyOpt rid1 then rid1 else none

/-- What one poll iteration observes: the status listing
(`session.get(STATUS_URL).json()`) and the body of the detail call
(`session.get(f"{STATUS_URL}/{request_id}").json()`, `none` when that
`.json()` raises).  The detail field is consulted only when the target
entry shows `COMPLETED`. -/
structure Snapshot where
  listing : List Entry
  detail : Option Json

/-- `next((x for x in reports if x.get("requestId") == request_id), None)`
(line 166). -/
def findTarget (reports : List Entry) (rid : Json) : Option Entry :=
  reports.find? (fun x => x.requestId == some rid)

/-- Normalization of the detail response (line 173):
`val.get("status") if isinstance(val, dict) else str(val)`.
`none` is Python `None` (dict without a `status` key). -/
def normalizeDetail : Json → Option Json
  | .obj fs => lookupField fs "status"
  | v => some (.str (pyStr v))

/-- Python `u.startswith(p)` (characterwise prefix test). -/
def pyStartsWith (u p : String) : Bool :=
  List.isPrefixOf p.toList u.toList

/-- Result of one poll-loop body execution. -/
inductive StepOutcome where
  | proceed (detailFetched : Bool) (newUrl : Option Json) : StepOutcome
  | resolvedNow (u : String) : StepOutcome
  | crashed (msg : String) : StepOutcome
deriving Repr

/-- One execution of the poll-loop body (lines 164-176), given the current
`download_url` value `url0`: find the target entry; on `COMPLETED` issue
the detail call, normalize, and break when the value starts with
`"http"`; a non-string normalized value makes `.startswith` raise
`AttributeError`; otherwise fall through to `time.sleep`. -/
def pollStep (rid : Json) (url0 : Option Json) (s : Snapshot) : StepOutcome :=
  match findTarget s.listing rid with
  | none => .proceed false url0
  | some target =>
    if target.status == some (Json.str "COMPLETED") then
      match s.detail with
      | none => .crashed "json decode error"
      | some val =>
        match normalizeDetail val with
        | some (Json.str u) =>
          if pyStartsWith u "http" then .resolvedNow u
          else .proceed true (some (Json.str u))
        | _ => .crashed "AttributeError: object has no attribute startswith"
    else .proceed false url0

/-- How the poll loop ended. -/
inductive PollOutcome where
  | resolved (u : String) : PollOutcome
  | deadline (lastUrl : Option Json) : PollOutcome
  | pyError (msg : String) : PollOutcome
deriving Repr

/-- Poll-loop result together with its observable effects: number of
status-listing GETs, detail GETs, and `time.sleep` calls. -/
structure PollResult where
  outcome : PollOutcome
  statusFetches : Nat
  detailFetches : Nat
  sleeps : Nat
deriving Repr

/-- The poll loop (lines 160-176).  The snapshot list is the sequence of
observations the deadline budget admits: list exhausted = `MAX_WAIT_SECONDS`
elapsed, and the loop exits with the current `download_url` value. -/
def pollLoop (rid : Json) (url0 : Option Json) : List Snapshot → PollResult
  | [] => { outcome := .deadline url0, statusFetches := 0, detailFetches := 0, sleeps := 0 }
  | s :: rest =>
    match pollStep rid url0 s with
    | .resolvedNow u =>
      { outcome := .resolved u, statusFetches := 1, detailFetches := 1, sleeps := 0 }
    | .crashed m =>
      { outcome := .pyError m, statusFetches := 1, detailFetches := 1, sleeps := 0 }
    | .proceed df newUrl =>
      let r := pollLoop rid newUrl rest
      { outcome := r.outcome
        statusFetches := r.statusFetches + 1
        detailFetches := r.detailFetches + (if df then 1 else 0)
        sleeps := r.sleeps + 1 }

/-- How `main` ends, up to the download call.  `downloadAttempt v` means
control reached `requests.get(download_url, stream=True)` with
`download_url = v` (`none` is Python `None`). -/
inductive RunOutcome where
  | authError : RunOutcome
  | resolutionError : RunOutcome
  | pollCrash (msg : String) : RunOutcome
  | downloadAttempt (url : Option Json) : RunOutcome
deriving Repr

/-- Observable result of a `main` run up to the download call. -/
structure RunResult where
  outcome : RunOutcome
  statusFetches : Nat
  detailFetches : Nat
  sleeps : Nat
deriving Repr

/-- `main` (lines 140-183): POST the generation request, check the session,
resolve the requestId (with listing fallback `fallbackListing`), poll over
`trace`, then issue the download call with whatever `download_url` holds. -/
def runMain (gen : GenResponse) (fallbackListing : List Entry)
    (trace : List Snapshot) : RunResult :=
  if assert_session_alive gen then
    { outcome := .authError, statusFetches := 0, detailFetches := 0, sleeps := 0 }
  else
    match resolveRequestId gen fallbackListing with
    | none =>
      { outcome := .resolutionError, statusFetches := 0, detailFetches := 0, sleeps := 0 }
    | some rid =>
      let pr := pollLoop rid none trace
      match pr.outcome with
      | .resolved u =>
        { outcome := .downloadAttempt (some (.str u)), statusFetches := pr.statusFetches
          detailFetches := pr.detailFetches, sleeps := pr.sleeps }
      | .deadline v =>
        { outcome := .downloadAttempt v, statusFetches := pr.statusFetches
          detailFetches := pr.detailFetches, sleeps := pr.sleeps }
      | .pyError m =>
        { outcome := .pollCrash m, statusFetches := pr.statusFetches
          detailFetches := pr.detailFetches, sleeps := pr.sleeps }

/-- Result of `requests.get(download_url, stream=True)`: either the
transport layer raised, or a response arrived with some HTTP status and a
sequence of body chunks (`r.iter_content(chunk_size=8192)`). -/
inductive HttpResult where
  | transportError (msg : String) : HttpResult
  | response (status : Nat) (chunks : List (List Nat)) : HttpResult
deriving Repr

/-- Outcome of the download block. -/
inductive DownloadOutcome where
  | transportFailure (msg : String) : DownloadOutcome
  | fileWritten (bytes : List Nat) : DownloadOutcome
deriving Repr

/-- The download block (lines 183-186): a transport error propagates out of
`requests.get`; otherwise every body chunk is written to the local file —
the HTTP status code is never inspected. -/
def downloadStep : HttpResult → DownloadOutcome
  | .transportError m => .transportFailure m
  | .response _ chunks => .fileWritten chunks.flatten

/-! ### Step classification

Predicates on a single poll observation, expressed through `pollStep` (the
loop-body semantics).  `pollStep`'s classification does not depend on the
incoming `download_url` value, so probing with `none` is canonical. -/

/-- The iteration falls through to `time.sleep` and polling continues
(no target entry, target not `COMPLETED`, or `COMPLETED` with a normalized
string value not starting with `"http"`). -/
def stepContinues (rid : Json) (s : Snapshot) : Bool :=
  match pollStep rid none s with
  | .proceed _ _ => true
  | _ => false

/-- The URL the iteration resolves (breaks) with, if any: the target entry
shows `COMPLETED` and the normalized detail value is a string starting
with `"http"`. -/
def stepResolves (rid : Json) (s : Snapshot) : Option String :=
  match pollStep rid none s with
  | .resolvedNow u => some u
  | _ => none

/-- The iteration observed the target entry as `COMPLETED`, issued the
detail call, but the normalized value was a string not starting with
`"http"`: the loop keeps going with the detail value stored. -/
def stepCompletedNonHttp (rid : Json) (s : Snapshot) : Bool :=
  match pollStep rid none s with
  | .proceed true _ => true
  | _ => false

/-! ### Concrete fixtures -/

/-- Generation response: HTTP 200 with body `{"id": 555}`. -/
def genOk : GenResponse :=
  { status := 200, text := "\x7b\"id\": 555\x7d", json := some (.obj [("id", .num 555)]) }

/-- Listing entry for request 555, still `RUNNING`. -/
def entryRunning555 : Entry :=
  { requestId := some (.num 555), status := some (.str "RUNNING") }

/-- One poll observation in which request 555 is still `RUNNING`. -/
def snapRunning555 : Snapshot :=
  { listing := [entryRunning555], detail := some .null }

/-- Three poll observations in which request 555 never reaches `COMPLETED`,
after which the `MAX_WAIT_SECONDS` deadline elapses. -/
def traceNeverCompleted : List Snapshot :=
  [snapRunning555, snapRunning555, snapRunning555]

/-- Generation response: HTTP 401 with an empty body. -/
def gen401 : GenResponse :=
  { status := 401, text := "", json := none }

/-- Generation response: HTTP 200 with an empty body (no identifier). -/
def genEmptyBody : GenResponse :=
  { status := 200, text := "", json := none }

/-- Generation response: HTTP 500 server error. -/
def gen500 : GenResponse :=
  { status := 500, text := "internal server error", json := none }

/-- Listing entry for request 555 `COMPLETED`. -/
def entryCompleted555 : Entry :=
  { requestId := some (.num 555), status := some (.str "COMPLETED") }

/-- Observation: 555 `COMPLETED`, detail body the raw URL string. -/
def snapCompletedGood : Snapshot :=
  { listing := [entryCompleted555], detail := some (.str "https://files/inv.xlsx") }

/-- Observation: 555 `COMPLETED`, but the detail body is the string
`"PROCESSING"` (no URL yet). -/
def snapCompletedNoUrl : Snapshot :=
  { listing := [entryCompleted555], detail := some (.str "PROCESSING") }

/-! ### Helper lemmas -/

/-- `pollStep`'s classification ignores the incoming `download_url`: either
the step result is literally the same, or both runs fall through with their
respective unchanged values. -/
lemma pollStep_indep (rid : Json) (s : Snapshot) (u0 u1 : Option Json) :
    pollStep rid u0 s = pollStep rid u1 s ∨
    (pollStep rid u0 s = .proceed false u0 ∧ pollStep rid u1 s = .proceed false u1) := by
  unfold pollStep
  cases hft : findTarget s.listing rid with
  | none => right; exact ⟨rfl, rfl⟩
  | some t =>
    by_cases hc : (t.status == some (Json.str "COMPLETED")) = true
    · left; simp [hc]
    · right; simp [hc]

/-- A continuing step is a `proceed` for every incoming `download_url`. -/
lemma pollStep_of_continues (rid : Json) (s : Snapshot) (u0 : Option Json)
    (h : stepContinues rid s = true) :
    ∃ df u1, pollStep rid u0 s = .proceed df u1 := by
  unfold stepContinues at h
  cases hps : pollStep rid none s with
  | proceed df u1 =>
    rcases pollStep_indep rid s u0 none with heq | ⟨h1, _⟩
    · exact ⟨df, u1, heq.trans hps⟩
    · exact ⟨false, u0, h1⟩
  | resolvedNow u => rw [hps] at h; simp at h
  | crashed m => rw [hps] at h; simp at h

/-- A resolving step breaks with its URL for every incoming value. -/
lemma pollStep_of_resolves (rid : Json) (s : Snapshot) (u : String) (u0 : Option Json)
    (h : stepResolves rid s = some u) :
    pollStep rid u0 s = .resolvedNow u := by
  unfold stepResolves at h
  cases hps : pollStep rid none s with
  | proceed df u1 => rw [hps] at h; simp at h
  | resolvedNow w =>
    rw [hps] at h
    simp only [Option.some.injEq] at h
    subst h
    rcases pollStep_indep rid s u0 none with heq | ⟨_, h2⟩
    · exact heq.trans hps
    · rw [hps] at h2; cases h2
  | crashed m => rw [hps] at h; simp at h

/-- A `COMPLETED`-but-non-URL step proceeds, fetching the detail, for every
incoming value, and the stored value does not depend on the incoming one. -/
lemma pollStep_of_completedNonHttp (rid : Json) (s : Snapshot) (u0 : Option Json)
    (h : stepCompletedNonHttp rid s = true) :
    ∃ u1, pollStep rid u0 s = .proceed true u1 := by
  unfold stepCompletedNonHttp at h
  cases hps : pollStep rid none s with
  | proceed df u1 =>
    rw [hps] at h
    cases df with
    | false => simp at h
    | true =>
      rcases pollStep_indep rid s u0 none with heq | ⟨_, h2⟩
      · exact ⟨u1, heq.trans hps⟩
      · rw [hps] at h2; cases h2
  | resolvedNow w => rw [hps] at h; simp at h
  | crashed m => rw [hps] at h; simp at h

/-- Unfolding the loop on a `proceed` step. -/
lemma pollLoop_cons_of_proceed (rid : Json) (u0 : Option Json) (s : Snapshot)
    (rest : List Snapshot) (df : Bool) (u1 : Option Json)
    (h : pollStep rid u0 s = .proceed df u1) :
    pollLoop rid u0 (s :: rest) =
      { outcome := (pollLoop rid u1 rest).outcome
        statusFetches := (pollLoop rid u1 rest).statusFetches + 1
        detailFetches := (pollLoop rid u1 rest).detailFetches + (if df then 1 else 0)
        sleeps := (pollLoop rid u1 rest).sleeps + 1 } := by
  simp [pollLoop, h]

/-- Unfolding the loop on a resolving step. -/
lemma pollLoop_cons_of_resolved (rid : Json) (u0 : Option Json) (s : Snapshot)
    (rest : List Snapshot) (u : String)
    (h : pollStep rid u0 s = .resolvedNow u) :
    pollLoop rid u0 (s :: rest) =
      { outcome := .resolved u, statusFetches := 1, detailFetches := 1, sleeps := 0 } := by
  simp [pollLoop, h]

/-- The session check raises exactly on 401/403 or a `login` marker in the
body. -/
lemma assert_iff (gen : GenResponse) :
    assert_session_alive gen = true ↔
      (gen.status = 401 ∨ gen.status = 403 ∨ containsLogin gen.text = true) := by
  simp [assert_session_alive, or_assoc]

/-- Fallback resolution: with no synchronous identifier and a non-empty
listing whose first entry carries a truthy `requestId`, that value is
adopted. -/
lemma resolveRequestId_fallback (gen : GenResponse) (e : Entry) (rest : List Entry)
    (v : Json) (hno : pyTruthyOpt (extractId gen) = false)
    (hfst : e.requestId = some v) (htr : truthy v = true) :
    resolveRequestId gen (e :: rest) = some v := by
  simp only [resolveRequestId]
  rw [hno]
  simp [hfst, pyTruthyOpt, htr]

/-- When the session check raises, `main` stops at once. -/
lemma runMain_of_session_dead (gen : GenResponse) (fb : List Entry)
    (trace : List Snapshot) (h : assert_session_alive gen = true) :
    runMain gen fb trace =
      { outcome := .authError, statusFetches := 0, detailFetches := 0, sleeps := 0 } := by
  simp [runMain, h]

/-- When the session check passes, `main` never reports the auth error. -/
lemma runMain_ne_auth_of_session_ok (gen : GenResponse) (fb : List Entry)
    (trace : List Snapshot) (h : assert_session_alive gen = false) :
    (runMain gen fb trace).outcome ≠ .authError := by
  unfold runMain
  rw [h]
  simp only [Bool.false_eq_true, if_false]
  cases resolveRequestId gen fb with
  | none => simp
  | some rid => cases hp : (pollLoop rid none trace).outcome <;> simp [hp]

/-- When the requestId cannot be resolved, `main` raises the resolution
error before any poll. -/
lemma runMain_of_unresolved (gen : GenResponse) (fb : List Entry)
    (trace : List Snapshot) (h1 : assert_session_alive gen = false)
    (h2 : resolveRequestId gen fb = none) :
    runMain gen fb trace =
      { outcome := .resolutionError, statusFetches := 0, detailFetches := 0, sleeps := 0 } := by
  simp [runMain, h1, h2]

/-! ### Claims -/

/-- C1: the poll deadline elapses without the target entry reaching
`COMPLETED`; the claim says `PollTimeoutError` is raised and the retriever
is never invoked.  Evaluating `main` on such a run shows the code instead
falls out of the poll loop and reaches
`requests.get(download_url, stream=True)` with `download_url = None`:
the retriever IS invoked with an unresolved location and no timeout error
is ever raised. -/
theorem claim_C1_timeout_invokes_retriever_unresolved :
    runMain genOk [] traceNeverCompleted =
      { outcome := .downloadAttempt none, statusFetches := 3,
        detailFetches := 0, sleeps := 3 } := by
  rfl

/-- C2 counterexample: an HTTP 404 response (non-success status) does not
fail the download — its body chunks are written to the local artifact file,
refuting "fails with DownloadError on any non-success HTTP status; a local
artifact file is produced only from a successful response". -/
theorem claim_C2_counterexample :
    downloadStep (.response 404 [[80, 75], [3, 4]]) = .fileWritten [80, 75, 3, 4] := by
  rfl

/-- C2 amended: the retrieval fails exactly on a transport error, and for
every HTTP response — whatever its status code — the body chunks are
written to the local file (the status is never inspected). -/
theorem claim_C2_amended_transport_failures_only :
    (∀ r : HttpResult,
      (∃ m, downloadStep r = .transportFailure m) ↔ (∃ m, r = .transportError m)) ∧
    (∀ s chunks, downloadStep (.response s chunks) = .fileWritten chunks.flatten) := by
  refine ⟨fun r => ⟨fun ⟨m, hm⟩ => ?_, fun ⟨m, hm⟩ => ?_⟩, fun s chunks => rfl⟩
  · cases r with
    | transportError m2 => exact ⟨m2, rfl⟩
    | response s chunks => simp [downloadStep] at hm
  · subst hm
    exact ⟨m, rfl⟩

/-- C6: detail-response normalization is form-insensitive — for every URL
string `u`, the structured form `{"status": u}` and the raw-string form `u`
normalize to the identical download URL `u`. -/
theorem claim_C6_normalization_form_insensitive :
    ∀ u : String,
      normalizeDetail (.obj [("status", .str u)]) = some (.str u) ∧
      normalizeDetail (.str u) = some (.str u) := by
  intro u
  exact ⟨rfl, rfl⟩

/-- C3: submission fails with the authentication error exactly when the
generation response has status 401 or 403 or its body contains `"login"`
(case-insensitively, the code's test for a login-page redirect), and in
that case the run terminates before any poll: no status fetch, no detail
fetch, no sleep. -/
theorem claim_C3_auth_exactly_and_before_poll (gen : GenResponse)
    (fb : List Entry) (trace : List Snapshot) :
    ((runMain gen fb trace).outcome = .authError ↔
      (gen.status = 401 ∨ gen.status = 403 ∨ containsLogin gen.text = true)) ∧
    ((runMain gen fb trace).outcome = .authError →
      (runMain gen fb trace).statusFetches = 0 ∧
      (runMain gen fb trace).detailFetches = 0 ∧
      (runMain gen fb trace).sleeps = 0) := by
  cases h : assert_session_alive gen with
  | true =>
    rw [runMain_of_session_dead gen fb trace h]
    rw [← assert_iff gen]
    simp [h]
  | false =>
    have hne := runMain_ne_auth_of_session_ok gen fb trace h
    refine ⟨⟨fun hh => absurd hh hne, fun hh => ?_⟩, fun hh => absurd hh hne⟩
    have := (assert_iff gen).mpr hh
    rw [h] at this
    cases this

/-- C3 witness: a 401 generation response terminates the run with the
authentication error and zero poll activity. -/
theorem claim_C3_witness :
    (runMain gen401 [] []).outcome = .authError ∧
    (runMain gen401 [] []).statusFetches = 0 := by
  have h := claim_C3_auth_exactly_and_before_poll gen401 [] []
  have ho : (runMain gen401 [] []).outcome = .authError := h.1.mpr (Or.inl rfl)
  exact ⟨ho, (h.2 ho).1⟩

/-- C4: for a generation response carrying no (truthy) identifier, the
submitter adopts the `requestId` of the listing's first entry, whatever the
rest of the listing is. -/
theorem claim_C4_fallback_adopts_first_entry (gen : GenResponse) (e : Entry)
    (rest : List Entry) (v : Json)
    (hno : pyTruthyOpt (extractId gen) = false)
    (hfst : e.requestId = some v) (htr : truthy v = true) :
    resolveRequestId gen (e :: rest) = some v :=
  resolveRequestId_fallback gen e rest v hno hfst htr

/-- C4 witness: an empty 200 response plus a listing headed by request 555
resolves to 555. -/
theorem claim_C4_witness :
    resolveRequestId genEmptyBody [entryRunning555] = some (.num 555) :=
  claim_C4_fallback_adopts_first_entry genEmptyBody entryRunning555 [] (.num 555)
    rfl rfl rfl

/-- C5: when neither the response body nor the listing fallback yields a
(truthy) identifier, `main` fails with the resolution error and performs no
poll at all. -/
theorem claim_C5_resolution_failure_no_poll (gen : GenResponse) (fb : List Entry)
    (trace : List Snapshot)
    (halive : assert_session_alive gen = false)
    (hno : pyTruthyOpt (extractId gen) = false)
    (hfb : ∀ e rest, fb = e :: rest → pyTruthyOpt e.requestId = false) :
    runMain gen fb trace =
      { outcome := .resolutionError, statusFetches := 0, detailFetches := 0, sleeps := 0 } := by
  apply runMain_of_unresolved gen fb trace halive
  cases fb with
  | nil => simp [resolveRequestId, hno]
  | cons e rest => simp [resolveRequestId, hno, hfb e rest rfl]

/-- C5 witness: empty response body and empty listing give the resolution
error with zero poll activity. -/
theorem claim_C5_witness :
    runMain genEmptyBody [] [] =
      { outcome := .resolutionError, statusFetches := 0, detailFetches := 0, sleeps := 0 } :=
  claim_C5_resolution_failure_no_poll genEmptyBody [] [] rfl rfl
    (fun _ _ h => nomatch h)

/-- C7: each poll iteration filters the full listing for the entry whose
`requestId` equals the target: any entry returned matches and belongs to
the listing, a matching entry is found wherever it sits in the listing, and
when no entry matches the iteration resolves nothing — the loop sleeps and
continues with everything else unchanged. -/
theorem claim_C7_filter_by_requestId (reports : List Entry) (rid : Json)
    (d : Option Json) (u0 : Option Json) (rest : List Snapshot) :
    (∀ e, findTarget reports rid = some e →
      (e.requestId == some rid) = true ∧ e ∈ reports) ∧
    ((∃ e ∈ reports, (e.requestId == some rid) = true) →
      (findTarget reports rid).isSome = true) ∧
    ((∀ x ∈ reports, (x.requestId == some rid) = false) →
      pollLoop rid u0 ({ listing := reports, detail := d } :: rest) =
        { outcome := (pollLoop rid u0 rest).outcome
          statusFetches := (pollLoop rid u0 rest).statusFetches + 1
          detailFetches := (pollLoop rid u0 rest).detailFetches
          sleeps := (pollLoop rid u0 rest).sleeps + 1 }) := by
  refine ⟨fun e he => ?_, fun ⟨e, hmem, hbeq⟩ => ?_, fun hall => ?_⟩
  · unfold findTarget at he
    have h1 := List.find?_some he
    have h2 := List.mem_of_find?_eq_some he
    exact ⟨by simpa using h1, h2⟩
  · unfold findTarget
    rw [List.find?_isSome]
    exact ⟨e, hmem, hbeq⟩
  · have hnone : findTarget reports rid = none := by
      unfold findTarget
      rw [List.find?_eq_none]
      intro x hx
      simp [hall x hx]
    have hps : pollStep rid u0 { listing := reports, detail := d } = .proceed false u0 := by
      simp [pollStep, hnone]
    rw [pollLoop_cons_of_proceed rid u0 _ rest false u0 hps]
    simp

/-- C7 witness: a listing without the target requestId leaves the iteration
without a resolution; one fetch, one sleep, then the deadline. -/
theorem claim_C7_witness :
    pollLoop (.num 777) none [{ listing := [entryRunning555], detail := some .null }] =
      { outcome := .deadline none, statusFetches := 1, detailFetches := 0, sleeps := 1 } := by
  have hall : ∀ x ∈ [entryRunning555], (x.requestId == some (Json.num 777)) = false := by
    intro x hx
    rw [List.mem_singleton] at hx
    subst hx
    rfl
  have h := (claim_C7_filter_by_requestId [entryRunning555] (.num 777)
    (some .null) none []).2.2 hall
  exact h.trans rfl

/-- C8: when every earlier iteration merely continues and then an iteration
finds the target `COMPLETED` with a detail value that is a string starting
with `"http"`, the poll loop returns exactly that URL, having fetched the
status listing exactly once per iteration up to and including the breaking
one and slept only between them — whatever observations would have followed
are never consumed. -/
theorem claim_C8_resolves_once_then_stops (rid : Json) (u0 : Option Json)
    (pre post : List Snapshot) (snap : Snapshot) (u : String)
    (hpre : ∀ s ∈ pre, stepContinues rid s = true)
    (hsnap : stepResolves rid snap = some u) :
    (pollLoop rid u0 (pre ++ snap :: post)).outcome = .resolved u ∧
    (pollLoop rid u0 (pre ++ snap :: post)).statusFetches = pre.length + 1 ∧
    (pollLoop rid u0 (pre ++ snap :: post)).sleeps = pre.length := by
  induction pre generalizing u0 with
  | nil =>
    rw [List.nil_append,
      pollLoop_cons_of_resolved rid u0 snap post u (pollStep_of_resolves rid snap u u0 hsnap)]
    exact ⟨rfl, rfl, rfl⟩
  | cons s pre ih =>
    obtain ⟨df, u1, hps⟩ :=
      pollStep_of_continues rid s u0 (hpre s (List.mem_cons_self s pre))
    have hrec := ih u1 (fun x hx => hpre x (List.mem_cons_of_mem s hx))
    rw [List.cons_append,
      pollLoop_cons_of_proceed rid u0 s (pre ++ snap :: post) df u1 hps]
    exact ⟨hrec.1, by simp [hrec.2.1], by simp [hrec.2.2]⟩

/-- C8 witness: one `RUNNING` observation, then `COMPLETED` with the URL:
the loop resolves that URL with two fetches and one sleep. -/
theorem claim_C8_witness :
    (pollLoop (.num 555) none [snapRunning555, snapCompletedGood]).outcome =
      .resolved "https://files/inv.xlsx" ∧
    (pollLoop (.num 555) none [snapRunning555, snapCompletedGood]).statusFetches = 2 ∧
    (pollLoop (.num 555) none [snapRunning555, snapCompletedGood]).sleeps = 1 := by
  have h := claim_C8_resolves_once_then_stops (.num 555) none [snapRunning555] []
    snapCompletedGood "https://files/inv.xlsx" (by decide) rfl
  exact ⟨h.1, h.2.1, h.2.2⟩

/-- C9: a generation response that is neither 401/403 nor mentions `login`
raises nothing at the submit step; in particular a 500 is silently treated
as carrying no identifier, and the first-listing-entry fallback supplies
the requestId. -/
theorem claim_C9_silent_fallback_on_server_error (gen : GenResponse)
    (h1 : gen.status ≠ 401) (h2 : gen.status ≠ 403)
    (h3 : containsLogin gen.text = false) :
    assert_session_alive gen = false ∧
    (∀ fb trace, (runMain gen fb trace).outcome ≠ .authError) ∧
    (gen.status = 500 →
      extractId gen = none ∧
      ∀ e rest v, e.requestId = some v → truthy v = true →
        resolveRequestId gen (e :: rest) = some v) := by
  have ha : assert_session_alive gen = false := by
    simp [assert_session_alive, h1, h2, h3]
  refine ⟨ha, fun fb trace => runMain_ne_auth_of_session_ok gen fb trace ha,
    fun h500 => ⟨?_, fun e rest v hfst htr => ?_⟩⟩
  · simp [extractId, h500]
  · exact resolveRequestId_fallback gen e rest v (by simp [pyTruthyOpt, extractId, h500]) hfst htr

/-- C9 witness: a 500 response passes the session check, yields no
identifier, and the fallback adopts the first listing entry. -/
theorem claim_C9_witness :
    assert_session_alive gen500 = false ∧
    extractId gen500 = none ∧
    resolveRequestId gen500 [entryRunning555] = some (.num 555) := by
  have h := claim_C9_silent_fallback_on_server_error gen500
    (by decide) (by decide) rfl
  exact ⟨h.1, (h.2.2 rfl).1, (h.2.2 rfl).2 entryRunning555 [] (.num 555) rfl rfl⟩

/-- C10: when every admitted observation shows the target `COMPLETED` with
a normalized detail value that is a string not starting with `"http"`, the
poller raises nothing and never terminates early: each iteration re-issues
the detail call, sleeps, and continues, until the deadline exhausts the
observations and the loop falls through. -/
theorem claim_C10_keeps_polling_on_non_url (rid : Json) (u0 : Option Json)
    (trace : List Snapshot)
    (h : ∀ s ∈ trace, stepCompletedNonHttp rid s = true) :
    (∃ v, (pollLoop rid u0 trace).outcome = .deadline v) ∧
    (pollLoop rid u0 trace).statusFetches = trace.length ∧
    (pollLoop rid u0 trace).detailFetches = trace.length ∧
    (pollLoop rid u0 trace).sleeps = trace.length := by
  induction trace generalizing u0 with
  | nil => exact ⟨⟨u0, rfl⟩, rfl, rfl, rfl⟩
  | cons s rest ih =>
    obtain ⟨u1, hps⟩ :=
      pollStep_of_completedNonHttp rid s u0 (h s (List.mem_cons_self s rest))
    have hrec := ih u1 (fun x hx => h x (List.mem_cons_of_mem s hx))
    rw [pollLoop_cons_of_proceed rid u0 s rest true u1 hps]
    obtain ⟨⟨v, hv⟩, hr1, hr2, hr3⟩ := hrec
    exact ⟨⟨v, hv⟩, by simp [hr1], by simp [hr2], by simp [hr3]⟩

/-- C10 witness: two `COMPLETED`-but-`"PROCESSING"` observations: two
fetches, two detail calls, two sleeps, then the deadline. -/
theorem claim_C10_witness :
    (∃ v, (pollLoop (.num 555) none [snapCompletedNoUrl, snapCompletedNoUrl]).outcome =
      .deadline v) ∧
    (pollLoop (.num 555) none [snapCompletedNoUrl, snapCompletedNoUrl]).statusFetches = 2 ∧
    (pollLoop (.num 555) none [snapCompletedNoUrl, snapCompletedNoUrl]).detailFetches = 2 ∧
    (pollLoop (.num 555) none [snapCompletedNoUrl, snapCompletedNoUrl]).sleeps = 2 :=
  claim_C10_keeps_polling_on_non_url (.num 555) none
    [snapCompletedNoUrl, snapCompletedNoUrl] (by decide)

end Increff
